import Mathlib

/-!
Verification development for the CivicRAG backend (`app.py`): the rule-based
eligibility matcher (`strict_retrieve`), the synthesis prompt builder
(`build_synthesis_prompt`) and the `/synthesize` endpoint with its local
fallback, shallowly embedded in Lean.

Modelling conventions:
* Python `float` scores and incomes are modelled as `ℚ`; every constant in
  the program (0.5, 0.8, 0.85, 0.9, 0.95, thresholds 500000 / 250000) is
  exactly representable and the order on these values agrees with the IEEE
  order, so comparisons and sorting are faithful.
* Python strings are Lean `String`s (sequences of code points, as in
  CPython); `s.lower()` is the code-point-wise `pyLower` (the profile fields
  the rules compare are ASCII), `pat in s` is the code-point substring test
  `pyIn`, `s[:n]` is `strTakeChars s n`, `s.startswith(t)` is `pyStarts s t`.
* Score and threshold constants are written with `mkRat`, e.g. `mkRat 9 10`
  for the literal `0.9`.
* Optional / missing JSON fields are `Option` fields; Python truthiness of a
  string (`if s:`) is `s ≠ ""` on `some s` and `False` on `None`.
-/

/-- A catalog record / response entry (the dict shape of `SCHEMES` entries and
the `SchemeOut` pydantic model).  The catalog dicts carry no `matchScore` key;
`SchemeOut` defaults it to `0.0`, so catalog records here carry `0`. -/
structure Scheme where
  id : String
  name : String
  name_hi : String
  description : String
  description_hi : String
  eligibilityCriteria : List String
  eligibilityCriteria_hi : List String
  benefits : String
  benefits_hi : String
  category : String
  category_hi : String
  sourceUrl : String
  state : String
  matchScore : ℚ := 0
  deriving DecidableEq, Repr

/-- The `ProfileIn` pydantic model: every field optional. -/
structure ProfileIn where
  name : Option String := none
  age : Option Int := none
  gender : Option String := none
  state : Option String := none
  income : Option ℚ := none
  occupation : Option String := none
  text : Option String := none
  deriving DecidableEq, Repr

/-- Does `pat` occur at the head of `l`?  (Helper for the Python string
operations `in` and `startswith`.) -/
def charsStartWith : List Char → List Char → Bool
  | _, [] => true
  | [], _ :: _ => false
  | a :: as, b :: bs => a == b && charsStartWith as bs

/-- Does `pat` occur anywhere in `l`? -/
def charsContain (l pat : List Char) : Bool :=
  match l with
  | [] => pat.isEmpty
  | c :: t => charsStartWith (c :: t) pat || charsContain t pat

/-- Python `pat in hay` (substring containment over code points). -/
def pyIn (pat hay : String) : Bool :=
  charsContain hay.data pat.data

/-- Python `s.startswith(pat)`. -/
def pyStarts (s pat : String) : Bool :=
  charsStartWith s.data pat.data

/-- Python `s[:n]`: the first `n` code points of `s`. -/
def strTakeChars (s : String) (n : Nat) : String :=
  ⟨s.data.take n⟩

/-- Python `s.lower()`: lower-case every code point (extensionally
`String.toLower`, written over the character list so that it evaluates
inside the kernel). -/
def pyLower (s : String) : String :=
  ⟨s.data.map Char.toLower⟩

/-- Line 293 of `app.py`:
`occupation = profile.occupation.lower() if profile.occupation else ""`.
An absent or empty (falsy) occupation yields `""`; otherwise the string is
lower-cased.  No trimming is performed anywhere. -/
def normOccupation (o : Option String) : String :=
  match o with
  | none => ""
  | some s => if s = "" then "" else pyLower s

/-- `profile.gender and profile.gender.lower().startswith("f")`. -/
def genderStartsF (g : Option String) : Bool :=
  match g with
  | none => false
  | some s => if s = "" then false else pyStarts (pyLower s) "f"

/-- `profile.occupation and profile.occupation.lower() == "student"`
(line 357 reads the raw field again instead of the normalized one). -/
def occupationIsStudent (o : Option String) : Bool :=
  match o with
  | none => false
  | some s => if s = "" then false else pyLower s == "student"

/-- `v is not None and v < bound` for an optional number. -/
def optLtNum (v : Option ℚ) (bound : ℚ) : Bool :=
  match v with
  | some x => decide (x < bound)
  | none => false

/-- `v is not None and lo <= v <= hi` for the optional integer age. -/
def optInRange (v : Option Int) (lo hi : Int) : Bool :=
  match v with
  | some a => decide (lo ≤ a) && decide (a ≤ hi)
  | none => false

/-- `v is not None and v <= bound`. -/
def optLeNum (v : Option Int) (bound : Int) : Bool :=
  match v with
  | some a => decide (a ≤ bound)
  | none => false

/-- The catalog entries of `SCHEMES` in `app.py`, in source order. -/
def pmKisan : Scheme :=
  { id := "pm-kisan"
    name := "PM Kisan Samman Nidhi"
    name_hi := "प्रधानमंत्री किसान सम्मान निधि"
    description := "Income support of Rs 6000 per year for all land holding farmer families."
    description_hi := "सभी भूमिधारक किसान परिवारों के लिए प्रति वर्ष 6000 रुपये की आय सहायता।"
    eligibilityCriteria := ["Landholding farmer families", "Excludes institutional landholders",
      "Excludes income tax payers"]
    eligibilityCriteria_hi := ["भूमिधारक किसान परिवार", "संस्थागत भूमिधारकों को छोड़कर",
      "आयकर दाताओं को छोड़कर"]
    benefits := "INR 6000 per year in 3 installments."
    benefits_hi := "3 किस्तों में प्रति वर्ष 6000 रुपये।"
    category := "Agriculture"
    category_hi := "कृषि"
    sourceUrl := "https://pmkisan.gov.in"
    state := "Central" }

def ayushmanBharat : Scheme :=
  { id := "ayushman-bharat"
    name := "Ayushman Bharat (PM-JAY)"
    name_hi := "आयुष्मान भारत (PM-JAY)"
    description := "Health assurance scheme providing cover of Rs. 5 lakhs per family per year for secondary and tertiary care hospitalization."
    description_hi := "माध्यमिक और तृतीयक देखभाल अस्पताल में भर्ती के लिए प्रति परिवार प्रति वर्ष 5 लाख रुपये का स्वास्थ्य कवर।"
    eligibilityCriteria := ["Identified families based on SECC 2011 data",
      "Households with no adult member between 16-59",
      "Households with no able-bodied adult member"]
    eligibilityCriteria_hi := ["एसईसीसी 2011 डेटा के आधार पर पहचाने गए परिवार",
      "ऐसे परिवार जिनमें 16-59 वर्ष के बीच कोई वयस्क सदस्य नहीं है",
      "ऐसे परिवार जिनमें कोई सक्षम वयस्क सदस्य नहीं है"]
    benefits := "Cashless access to health care services up to INR 5 Lakhs."
    benefits_hi := "5 लाख रुपये तक की कैशलेस स्वास्थ्य सेवाएँ।"
    category := "Health"
    category_hi := "स्वास्थ्य"
    sourceUrl := "https://pmjay.gov.in"
    state := "Central" }

def pmSvanidhi : Scheme :=
  { id := "pm-svanidhi"
    name := "PM SVANidhi"
    name_hi := "पीएम स्वनिधि"
    description := "Special Micro-Credit Facility for Street Vendors."
    description_hi := "सड़क विक्रेताओं के लिए विशेष माइक्रो-क्रेडिट सुविधा।"
    eligibilityCriteria := ["Street vendors in urban areas", "Vending on or before 24 March 2020"]
    eligibilityCriteria_hi := ["शहरी क्षेत्रों में सड़क विक्रेता", "24 मार्च 2020 को या उससे पहले वेंडिंग"]
    benefits := "Working capital loan up to Rs. 10,000."
    benefits_hi := "10,000 रुपये तक का कार्यशील पूंजी ऋण।"
    category := "Business/Loan"
    category_hi := "व्यापार/ऋण"
    sourceUrl := "https://pmsvanidhi.mohua.gov.in"
    state := "Central" }

def sukanyaSamriddhi : Scheme :=
  { id := "sukanya-samriddhi"
    name := "Sukanya Samriddhi Yojana"
    name_hi := "सुकन्या समृद्धि योजना"
    description := "A small deposit scheme for the girl child."
    description_hi := "बालिकाओं के लिए एक छोटी जमा योजना।"
    eligibilityCriteria := ["Girl child below 10 years of age",
      "Account can be opened by parent/guardian"]
    eligibilityCriteria_hi := ["10 वर्ष से कम उम्र की बालिका",
      "खाता माता-पिता/अभिभावक द्वारा खोला जा सकता है"]
    benefits := "High interest rate, tax benefits under 80C."
    benefits_hi := "उच्च ब्याज दर, 80सी के तहत कर लाभ।"
    category := "Child Welfare"
    category_hi := "बाल कल्याण"
    sourceUrl := "https://www.nsiindia.gov.in"
    state := "Central" }

def atalPension : Scheme :=
  { id := "atal-pension"
    name := "Atal Pension Yojana"
    name_hi := "अटल पेंशन योजना"
    description := "Pension scheme for unorganized sector workers."
    description_hi := "असंगठित क्षेत्र के श्रमिकों के लिए पेंशन योजना।"
    eligibilityCriteria := ["Age between 18-40 years", "Have a savings bank account"]
    eligibilityCriteria_hi := ["उम्र 18-40 वर्ष के बीच", "बचत बैंक खाता होना चाहिए"]
    benefits := "Guaranteed pension of Rs 1000-5000 per month after 60 years."
    benefits_hi := "60 वर्ष के बाद 1000-5000 रुपये प्रति माह की गारंटीड पेंशन।"
    category := "Pension"
    category_hi := "पेंशन"
    sourceUrl := "https://www.npscra.nsdl.co.in"
    state := "Central" }

def ladliBehna : Scheme :=
  { id := "ladli-behna"
    name := "Mukhyamantri Ladli Behna Yojana (MP)"
    name_hi := "मुख्यमंत्री लाड़ली बहना योजना (मध्य प्रदेश)"
    description := "Financial assistance scheme for women in Madhya Pradesh."
    description_hi := "मध्य प्रदेश में महिलाओं के लिए वित्तीय सहायता योजना।"
    eligibilityCriteria := ["Resident of Madhya Pradesh", "Married women aged 21-60 years",
      "Family income less than 2.5 Lakhs"]
    eligibilityCriteria_hi := ["मध्य प्रदेश की निवासी", "21-60 वर्ष की विवाहित महिलाएं",
      "पारिवारिक आय 2.5 लाख से कम"]
    benefits := "INR 1250 per month directly to bank account."
    benefits_hi := "1250 रुपये प्रति माह सीधे बैंक खाते में।"
    category := "Women Welfare"
    category_hi := "महिला कल्याण"
    sourceUrl := "https://cmladlibehna.mp.gov.in/"
    state := "Madhya Pradesh" }

def rythuBandhu : Scheme :=
  { id := "rythu-bandhu"
    name := "Rythu Bandhu (Telangana)"
    name_hi := "रायथु बंधु (तेलंगाना)"
    description := "Investment Support Scheme for landholding farmers."
    description_hi := "भूमिधारक किसानों के लिए निवेश सहायता योजना।"
    eligibilityCriteria := ["Resident of Telangana", "Must own farm land",
      "Commercial farmers excluded"]
    eligibilityCriteria_hi := ["तेलंगाना के निवासी", "कृषि भूमि का स्वामी होना चाहिए",
      "वाणिज्यिक किसान शामिल नहीं"]
    benefits := "INR 5000 per acre per season."
    benefits_hi := "5000 रुपये प्रति एकड़ प्रति सीजन।"
    category := "Agriculture"
    category_hi := "कृषि"
    sourceUrl := "http://rythubandhu.telangana.gov.in/"
    state := "Telangana" }

def kanyashree : Scheme :=
  { id := "kanyashree"
    name := "Kanyashree Prakalpa (West Bengal)"
    name_hi := "कन्याश्री प्रकल्प (पश्चिम बंगाल)"
    description := "Conditional Cash Transfer Scheme for improving the status and well being of the girl child."
    description_hi := "बालिकाओं की स्थिति और कल्याण में सुधार के लिए सशर्त नकद हस्तांतरण योजना।"
    eligibilityCriteria := ["Resident of West Bengal", "Girl student aged 13-18 years", "Unmarried"]
    eligibilityCriteria_hi := ["पश्चिम बंगाल की निवासी", "13-18 वर्ष की छात्रा", "अविवाहित"]
    benefits := "Annual scholarship of INR 1000 and one-time grant of INR 25,000."
    benefits_hi := "1000 रुपये की वार्षिक छात्रवृत्ति और 25,000 रुपये का एकमुश्त अनुदान।"
    category := "Education/Women"
    category_hi := "शिक्षा/महिला"
    sourceUrl := "https://www.wbkanyashree.gov.in/"
    state := "West Bengal" }

def delhiElectricity : Scheme :=
  { id := "delhi-electricity"
    name := "Delhi Free Electricity Scheme"
    name_hi := "दिल्ली मुफ्त बिजली योजना"
    description := "Subsidy on electricity bills for domestic consumers in Delhi."
    description_hi := "दिल्ली में घरेलू उपभोक्ताओं के लिए बिजली बिल पर सब्सिडी।"
    eligibilityCriteria := ["Resident of Delhi", "Domestic electricity connection",
      "Consumption up to 200 units (Free)"]
    eligibilityCriteria_hi := ["दिल्ली के निवासी", "घरेलू बिजली कनेक्शन",
      "200 यूनिट तक खपत (मुफ्त)"]
    benefits := "Zero bill for consumption up to 200 units."
    benefits_hi := "200 यूनिट तक की खपत के लिए शून्य बिल।"
    category := "Utility"
    category_hi := "उपयोगिता"
    sourceUrl := "https://delhi.gov.in"
    state := "Delhi" }

/-- The module-level `SCHEMES` list, in source order. -/
def SCHEMES : List Scheme :=
  [pmKisan, ayushmanBharat, pmSvanidhi, sukanyaSamriddhi, atalPension,
   ladliBehna, rythuBandhu, kanyashree, delhiElectricity]

/-- The state filter at the top of the per-scheme loop (lines 299-305):
a scheme whose `state` is truthy and not `"Central"` is skipped (`none`)
unless the profile state matches it exactly, in which case the baseline
score is `0.5`.  Nationwide schemes pass with the initial score `0.0`. -/
def gateScore (p : ProfileIn) (scheme : Scheme) : Option ℚ :=
  if scheme.state ≠ "" ∧ scheme.state ≠ "Central" then
    match p.state with
    | none => none
    | some st => if scheme.state ≠ st then none else some (mkRat 1 2)
  else
    some 0

/-- The per-identifier rule block of the loop body (lines 307-367).  The
source writes a sequence of independent `if sid == <literal>` statements over
pairwise-distinct literals, so at most one of them fires and the sequence is
equivalent to this `else if` chain; `r0` is the `(score, is_eligible)` pair
the block starts from. -/
def evalRule (p : ProfileIn) (scheme : Scheme) (r0 : ℚ × Bool) : ℚ × Bool :=
  if scheme.id = "pm-kisan" then
    if pyIn "farmer" (normOccupation p.occupation) then (mkRat 9 10, true) else r0
  else if scheme.id = "pm-svanidhi" then
    if pyIn "vendor" (normOccupation p.occupation) || pyIn "street" (normOccupation p.occupation) then (mkRat 9 10, true) else r0
  else if scheme.id = "ayushman-bharat" then
    if optLtNum p.income 500000 then (mkRat 4 5, true) else r0
  else if scheme.id = "atal-pension" then
    if optInRange p.age 18 40 then (mkRat 17 20, true) else r0
  else if scheme.id = "sukanya-samriddhi" then
    if genderStartsF p.gender && optLeNum p.age 10 then (mkRat 19 20, true) else r0
  else if scheme.id = "ladli-behna" then
    if genderStartsF p.gender && optInRange p.age 21 60 && optLtNum p.income 250000 then
      (mkRat 19 20, true)
    else (r0.1, false)
  else if scheme.id = "rythu-bandhu" then
    if pyIn "farmer" (normOccupation p.occupation) then (mkRat 19 20, true) else (r0.1, false)
  else if scheme.id = "kanyashree" then
    if genderStartsF p.gender && occupationIsStudent p.occupation && optInRange p.age 13 18 then
      (mkRat 19 20, true)
    else (r0.1, false)
  else if scheme.id = "delhi-electricity" then
    if scheme.state = "Delhi" then (mkRat 9 10, true) else r0
  else r0

/-- One iteration of the loop over `SCHEMES`: the state gate, the rule block,
and the final `if is_eligible and score > 0` appending `entry = scheme.copy()`
with `entry["matchScore"] = score` (lines 369-372).  The score is written only
to the copy. -/
def evalScheme (p : ProfileIn) (scheme : Scheme) : Option Scheme :=
  match gateScore p scheme with
  | none => none
  | some s0 =>
    let r := evalRule p scheme (s0, false)
    if r.2 = true ∧ 0 < r.1 then some { scheme with matchScore := r.1 } else none

/-- The descending-by-score order used by
`sorted(results, key=lambda x: x.get("matchScore", 0), reverse=True)`. -/
def scoreGE (a b : Scheme) : Prop :=
  b.matchScore ≤ a.matchScore

instance : DecidableRel scoreGE := fun a b =>
  inferInstanceAs (Decidable (b.matchScore ≤ a.matchScore))

instance : IsTotal Scheme scoreGE :=
  ⟨fun a b => le_total b.matchScore a.matchScore⟩

instance : IsTrans Scheme scoreGE :=
  ⟨fun _ _ _ hab hbc => le_trans hbc hab⟩

/-- CPython's `sorted` with `reverse=True` is the stable sort by the reversed
comparison; a stable sort is determined by its order relation, so insertion
sort with `scoreGE` computes the same list. -/
def sortDesc (l : List Scheme) : List Scheme :=
  List.insertionSort scoreGE l

/-- `strict_retrieve` with the catalog threaded explicitly as state: the loop
reads each catalog record, writes the computed score only to its copy and
appends the copy, so the catalog component comes back as the loop left it. -/
def strict_retrieveRun (catalog : List Scheme) (p : ProfileIn) :
    List Scheme × List Scheme :=
  (sortDesc (catalog.filterMap (evalScheme p)), catalog)

/-- `strict_retrieve(profile)` (lines 279-376). -/
def strict_retrieve (p : ProfileIn) : List Scheme :=
  (strict_retrieveRun SCHEMES p).1

/-- `str(x)` of an optional string field inside an f-string: Python renders
a missing field as `None`. -/
def pyShowOptStr : Option String → String
  | none => "None"
  | some s => s

/-- `str(x)` of the optional integer age field. -/
def pyShowOptInt : Option Int → String
  | none => "None"
  | some n => toString n

/-- Rendering of the optional income inside the prompt's f-string.  Python
prints the float repr (`250000.0`); float formatting is outside this
embedding and no claim depends on the rendered digits, so the rational is
printed with `toString`. -/
def pyShowOptNum : Option ℚ → String
  | none => "None"
  | some q => toString q

/-- The `user_ctx` f-string of `build_synthesis_prompt` (line 455). -/
def userCtx (p : ProfileIn) : String :=
  "Name: " ++ pyShowOptStr p.name ++ "\nAge: " ++ pyShowOptInt p.age ++
    "\nGender: " ++ pyShowOptStr p.gender ++ "\nState: " ++ pyShowOptStr p.state ++
    "\nIncome: INR " ++ pyShowOptNum p.income ++ "\nOccupation: " ++
    pyShowOptStr p.occupation ++ "\n"

/-- The per-scheme context line of `build_synthesis_prompt` (line 459). -/
def schemeCtxLine (s : Scheme) : String :=
  "Scheme: " ++ s.name ++ "\nBenefits: " ++ s.benefits ++ "\nEligibility: " ++
    String.intercalate ", " s.eligibilityCriteria ++ "\nSource: " ++ s.sourceUrl ++ "\n---"

/-- `ctx_text = "\n".join(ctx_lines)[:8000]` (line 460): the scheme-context
block, truncated to its first 8000 code points after newline-joining. -/
def synthCtxText (schemes : List Scheme) : String :=
  strTakeChars (String.intercalate "\n" (schemes.map schemeCtxLine)) 8000

/-- `build_synthesis_prompt(profile, schemes, language)` (lines 452-476). -/
def build_synthesis_prompt (p : ProfileIn) (schemes : List Scheme)
    (language : String) : String :=
  let lang_name :=
    if language ≠ "" ∧ pyStarts (pyLower language) "h" then "Hindi" else "English"
  "You are a helpful government-scheme consultant. Do not provide legal advice. Provide advisory guidance only.\n\n"
    ++ "Respond in " ++ lang_name ++ ".\n\n"
    ++ "User Profile:\n" ++ userCtx p ++ "\n\n"
    ++ "Retrieved Schemes (context):\n" ++ synthCtxText schemes ++ "\n\n"
    ++ "Instructions:\n"
    ++ " - For each scheme, write one short bullet explaining why the user might be eligible (point to matching criteria).\n"
    ++ " - If a scheme does not match, do not include it.\n"
    ++ " - Provide a final short next-step suggestion (1-2 bullets) for how the user can apply or verify eligibility.\n"
    ++ " - Keep the response concise (approx. 6-12 short bullets or lines).\n"
    ++ "Return plain text suitable for display in a UI."

/-- `language = body.language or "en"` (line 498): `None` and the empty
string default to `"en"`. -/
def pyLangDefault (l : Option String) : String :=
  match l with
  | none => "en"
  | some s => if s = "" then "en" else s

/-- The per-identifier canned reason table of the local fallback
(lines 526-547); an identifier outside the table falls back to the
joined-criteria sentence. -/
def fallbackReason (s : Scheme) : String :=
  if s.id = "pm-kisan" then
    "You are a farmer, and PM-Kisan supports landholding farmers."
  else if s.id = "pm-svanidhi" then
    "You are a street vendor; PM SVANidhi offers micro-credit to vendors."
  else if s.id = "ayushman-bharat" then
    "Your income is below the simulated threshold for Ayushman Bharat."
  else if s.id = "atal-pension" then
    "Your age falls in the Atal Pension eligible range."
  else if s.id = "sukanya-samriddhi" then
    "Your profile matches the Sukanya Samriddhi criteria for a girl child."
  else if s.id = "ladli-behna" then
    "You are a woman resident of MP within the eligible age and income range."
  else if s.id = "rythu-bandhu" then
    "You are a farmer in Telangana, matching Rythu Bandhu."
  else if s.id = "kanyashree" then
    "You are a girl student in the eligible age range for Kanyashree."
  else if s.id = "delhi-electricity" then
    "You are a Delhi resident eligible for basic electricity subsidy."
  else
    "Matches some published eligibility criteria: " ++
      String.intercalate ", " s.eligibilityCriteria

/-- The fixed English next-steps block of the local fallback (line 551). -/
def nextSteps : String :=
  "- Verify documents (Aadhaar, Income certificate, Residence proof)\n- Visit the official scheme page or your local helpdesk to apply."

/-- The fixed Hindi next-steps block of the local fallback (line 558). -/
def nextStepsHi : String :=
  "- दस्तावेज़ सत्यापित करें (आधार, आय प्रमाण, निवास प्रमाण)\n- आवेदन हेतु आधिकारिक पोर्टल या नजदीकी सहायता केंद्र पर जाएँ।"

/-- The crude per-line phrase substitution applied to fallback lines when the
requested language is Hindi (line 557). -/
def hindiSubst (l : String) : String :=
  ((l.replace "You are" "आप").replace "Your" "आपकी").replace
    "Verify documents" "प्रमाणपत्र सत्यापित करें"

/-- The fixed one-sentence fallback used when a key is configured but Gemini
returned nothing usable (line 515); note the case-sensitive
`language.startswith("h")` here. -/
def geminiEmptyFallback (lang : String) : String :=
  if pyStarts lang "h" then
    "Gemini से विश्लेषण प्राप्त नहीं कर सके। कृपया बाद में पुनः प्रयास करें।"
  else
    "Could not generate analysis from Gemini. Please try again later."

/-- The `/synthesize` endpoint (lines 494-562).  `geminiKey` is the
`GEMINI_API_KEY` value and `geminiOut` abstracts what `call_gemini(prompt)`
returns when it is invoked (`none` when every endpoint attempt failed);
`call_gemini` catches all its own exceptions, so the endpoint's `except`
branch is unreachable and the call's outcome is fully described by this
option.  The function always produces a response text, never an HTTP
error. -/
def synthesize (geminiKey : String) (geminiOut : Option String)
    (profile : ProfileIn) (schemes : List Scheme) (language : Option String) : String :=
  let lang := pyLangDefault language
  if schemes.isEmpty then
    if !(pyStarts lang "h") then "No schemes provided for synthesis."
    else "सिंथेसिस के लिए कोई योजना प्रदान नहीं की गई।"
  else
    let _prompt := build_synthesis_prompt profile schemes lang
    if geminiKey ≠ "" then
      match geminiOut with
      | some out => if out ≠ "" then out else geminiEmptyFallback lang
      | none => geminiEmptyFallback lang
    else
      let lines := schemes.map (fun s => "- " ++ s.name ++ ": " ++ fallbackReason s)
      if pyStarts (pyLower lang) "h" then
        String.intercalate "\n" (lines.map hindiSubst) ++ "\n\n" ++ nextStepsHi
      else
        String.intercalate "\n" lines ++ "\n\n" ++ nextSteps

/-- The example profile of the spec: `{occupation:"farmer", state:"Telangana"}`. -/
def profC1 : ProfileIn :=
  { occupation := some "farmer", state := some "Telangana" }

/-- A request body with every profile field absent. -/
def emptyProfile : ProfileIn := {}

theorem mem_sortDesc {m : Scheme} {l : List Scheme} : m ∈ sortDesc l ↔ m ∈ l :=
  List.mem_insertionSort scoreGE

theorem filter_orderedInsert_score (q : ℚ) (m : Scheme) (l : List Scheme) :
    (List.orderedInsert scoreGE m l).filter (fun x => decide (x.matchScore = q)) =
      (m :: l).filter (fun x => decide (x.matchScore = q)) := by
  induction l with
  | nil => rfl
  | cons x xs ih =>
    by_cases h : scoreGE m x
    · simp [List.orderedInsert, h]
    · have hlt : m.matchScore < x.matchScore := not_le.mp h
      by_cases hmq : m.matchScore = q
      · have hxq : ¬(x.matchScore = q) := by
          rw [← hmq]
          exact (ne_of_gt hlt)
        simp [List.orderedInsert, h, List.filter_cons, hmq, hxq, ih]
      · simp [List.orderedInsert, h, List.filter_cons, hmq, ih]

theorem filter_sortDesc_score (q : ℚ) (l : List Scheme) :
    (sortDesc l).filter (fun x => decide (x.matchScore = q)) =
      l.filter (fun x => decide (x.matchScore = q)) := by
  induction l with
  | nil => rfl
  | cons x xs ih =>
    calc (List.orderedInsert scoreGE x (sortDesc xs)).filter
            (fun y => decide (y.matchScore = q))
        = (x :: sortDesc xs).filter (fun y => decide (y.matchScore = q)) :=
          filter_orderedInsert_score q x (sortDesc xs)
      _ = (x :: xs).filter (fun y => decide (y.matchScore = q)) := by
          simp only [List.filter_cons, ih]

theorem sortDesc_pairwise (l : List Scheme) :
    List.Pairwise (fun a b => b.matchScore ≤ a.matchScore) (sortDesc l) :=
  (List.sorted_insertionSort scoreGE l).imp (fun h => h)

theorem evalScheme_eq_copy {p : ProfileIn} {s m : Scheme}
    (h : evalScheme p s = some m) : m = { s with matchScore := m.matchScore } := by
  unfold evalScheme at h
  cases hg : gateScore p s with
  | none =>
    rw [hg] at h
    exact absurd h (by simp)
  | some s0 =>
    rw [hg] at h
    simp only at h
    split at h
    · injection h with h2
      subst h2
      rfl
    · exact absurd h (by simp)

theorem mem_retrieveRun {cat : List Scheme} {p : ProfileIn} {m : Scheme}
    (h : m ∈ (strict_retrieveRun cat p).1) : ∃ s ∈ cat, evalScheme p s = some m := by
  have h2 : m ∈ cat.filterMap (evalScheme p) := mem_sortDesc.mp h
  simpa using List.mem_filterMap.mp h2

set_option maxHeartbeats 1600000 in
theorem evalRule_result (p : ProfileIn) (s : Scheme) (r0 : ℚ × Bool) :
    evalRule p s r0 = r0 ∨ evalRule p s r0 = (r0.1, false) ∨
    evalRule p s r0 = (mkRat 4 5, true) ∨ evalRule p s r0 = (mkRat 17 20, true) ∨
    evalRule p s r0 = (mkRat 9 10, true) ∨ evalRule p s r0 = (mkRat 19 20, true) := by
  unfold evalRule
  repeat' split
  all_goals first
    | exact Or.inl rfl
    | exact Or.inr (Or.inl rfl)
    | exact Or.inr (Or.inr (Or.inl rfl))
    | exact Or.inr (Or.inr (Or.inr (Or.inl rfl)))
    | exact Or.inr (Or.inr (Or.inr (Or.inr (Or.inl rfl))))
    | exact Or.inr (Or.inr (Or.inr (Or.inr (Or.inr rfl))))

theorem evalScheme_score {p : ProfileIn} {s m : Scheme}
    (h : evalScheme p s = some m) :
    m.matchScore = mkRat 4 5 ∨ m.matchScore = mkRat 17 20 ∨
    m.matchScore = mkRat 9 10 ∨ m.matchScore = mkRat 19 20 := by
  unfold evalScheme at h
  cases hg : gateScore p s with
  | none =>
    rw [hg] at h
    exact absurd h (by simp)
  | some s0 =>
    rw [hg] at h
    simp only at h
    split at h
    · rename_i hcond
      injection h with h2
      rcases evalRule_result p s (s0, false) with hr | hr | hr | hr | hr | hr <;>
        rw [hr] at hcond h2 <;> subst h2
      · exact absurd hcond.1 (by simp)
      · exact absurd hcond.1 (by simp)
      · exact Or.inl rfl
      · exact Or.inr (Or.inl rfl)
      · exact Or.inr (Or.inr (Or.inl rfl))
      · exact Or.inr (Or.inr (Or.inr rfl))
    · exact absurd h (by simp)

theorem SCHEMES_ids_nodup : (SCHEMES.map (fun s => s.id)).Nodup := by decide

theorem SCHEMES_state_ne_empty : ∀ s ∈ SCHEMES, s.state ≠ "" := by decide

/-- Claim C1: for the profile with occupation "farmer" and state/jurisdiction
"Telangana" (all other fields absent), the matcher returns exactly the
regional farmer scheme `rythu-bandhu` with score 0.95 followed by the
nationwide farmer scheme `pm-kisan` with score 0.90. -/
theorem claim_C1_farmer_telangana :
    strict_retrieve profC1 =
      [{ rythuBandhu with matchScore := mkRat 19 20 },
       { pmKisan with matchScore := mkRat 9 10 }] := by
  decide

/-- Claim C2: for every profile the matcher output is sorted in descending
order of match score, and for every score value the entries carrying that
score appear in exactly the order of the unsorted pass over the catalog
(`SCHEMES.filterMap (evalScheme p)`): the sort is stable and there is no
secondary tie-break field. -/
theorem claim_C2_sorted_stable (p : ProfileIn) :
    List.Pairwise (fun a b => b.matchScore ≤ a.matchScore) (strict_retrieve p) ∧
    ∀ q : ℚ, (strict_retrieve p).filter (fun x => decide (x.matchScore = q)) =
      (SCHEMES.filterMap (evalScheme p)).filter (fun x => decide (x.matchScore = q)) :=
  ⟨sortDesc_pairwise _, fun q => filter_sortDesc_score q _⟩

/-- Claim C3: a scheme of the catalog whose jurisdiction is regional (not
"Central") never appears in the matcher output when the profile's state is
absent or differs (case-sensitively) from the scheme's state, whatever the
rest of the profile says. -/
theorem claim_C3_regional_gate (p : ProfileIn) (s m : Scheme) (hs : s ∈ SCHEMES)
    (hreg : s.state ≠ "Central") (hmiss : p.state ≠ some s.state)
    (hm : m ∈ strict_retrieve p) : m.id ≠ s.id := by
  intro hid
  obtain ⟨t, ht, he⟩ := mem_retrieveRun hm
  have hcopy := evalScheme_eq_copy he
  have htid : t.id = s.id := by rw [← hid, hcopy]
  have hts : t = s := List.inj_on_of_nodup_map SCHEMES_ids_nodup ht hs htid
  subst hts
  have hgate : gateScore p t = none := by
    unfold gateScore
    rw [if_pos ⟨SCHEMES_state_ne_empty t ht, hreg⟩]
    cases hps : p.state with
    | none => rfl
    | some st =>
      have hne : t.state ≠ st := fun hEq => hmiss (by rw [hps, hEq])
      show (if t.state ≠ st then none else some (mkRat 1 2)) = none
      rw [if_pos hne]
  unfold evalScheme at he
  rw [hgate] at he
  exact absurd he (by simp)

/-- Witness for claim C3 at a concrete input: the `ladli-behna` scheme is
regional ("Madhya Pradesh") and the Telangana farmer profile does not match
it, so the first returned entry is not `ladli-behna`. -/
theorem claim_C3_regional_gate_witness :
    ({ rythuBandhu with matchScore := mkRat 19 20 } : Scheme).id ≠ ladliBehna.id :=
  claim_C3_regional_gate profC1 ladliBehna
    { rythuBandhu with matchScore := mkRat 19 20 }
    (by decide) (by decide) (by decide) (by decide)

/-- Claim C5 counterexample: the normalizer lower-cases but does not trim.
On occupation " Farmer " it returns " farmer ", whose first character is a
space, contradicting "the normalized occupation carries no leading or
trailing whitespace". -/
theorem claim_C5_counterexample :
    normOccupation (some " Farmer ") = " farmer " ∧
    (normOccupation (some " Farmer ")).data.head? = some ' ' := by
  decide

/-- Claim C5 (amended): the normalized occupation is exactly the lower-cased
input string (the empty string when the field is absent or empty), with no
trimming; the normalization is a total function, so it never raises. -/
theorem claim_C5_amended (o : Option String) :
    normOccupation o = pyLower (o.getD "") := by
  cases o with
  | none => rfl
  | some s =>
    by_cases h : s = ""
    · subst h
      rfl
    · simp [normOccupation, h]

/-- Claim C6: with an empty scheme list, `/synthesize` returns the fixed
"no schemes provided" sentence — English unless the (defaulted) language
code starts with "h", Hindi otherwise — independently of the key, of the
external call's outcome and of the profile, so no prompt is built and no
external call is consulted. -/
theorem claim_C6_empty_schemes (key : String) (out : Option String)
    (p : ProfileIn) (language : Option String) :
    synthesize key out p [] language =
      (if !(pyStarts (pyLangDefault language) "h") then
        "No schemes provided for synthesis."
      else "सिंथेसिस के लिए कोई योजना प्रदान नहीं की गई।") := rfl

/-- Claim C7: the matcher is a deterministic function of the profile and the
catalog state it reads; running the identical request twice in sequence
(the second run reading the catalog the first run left behind) produces
identical ordered result lists. -/
theorem claim_C7_deterministic (cat : List Scheme) (p : ProfileIn) :
    (strict_retrieveRun ((strict_retrieveRun cat p).2) p).1 =
      (strict_retrieveRun cat p).1 := rfl

/-- Claim C8: the scheme-context block embedded in the synthesis prompt is
the 8000-code-point prefix cut of the newline-join of the per-scheme summary
lines: its length never exceeds 8000, its first 8000 characters are exactly
those of the join, and it has no characters beyond index 8000. -/
theorem claim_C8_ctx_block (schemes : List Scheme) :
    (synthCtxText schemes).length ≤ 8000 ∧
    ∀ i : Nat, (synthCtxText schemes).data[i]? =
      (if i < 8000 then
        (String.intercalate "\n" (schemes.map schemeCtxLine)).data[i]?
      else none) := by
  constructor
  · have h : (synthCtxText schemes).length =
        ((String.intercalate "\n" (schemes.map schemeCtxLine)).data.take 8000).length := rfl
    rw [h, List.length_take]
    exact Nat.min_le_left _ _
  · intro i
    by_cases hi : i < 8000
    · rw [if_pos hi]
      show ((String.intercalate "\n" (schemes.map schemeCtxLine)).data.take 8000)[i]? = _
      exact List.getElem?_take_of_lt hi
    · rw [if_neg hi]
      have h1 : ((String.intercalate "\n" (schemes.map schemeCtxLine)).data.take 8000).length
          ≤ 8000 := by
        rw [List.length_take]
        exact Nat.min_le_left _ _
      exact List.getElem?_eq_none (Nat.le_trans h1 (Nat.le_of_not_lt hi))

/-- Claim C9: a matcher run never mutates the catalog — the catalog state
after the run is exactly the input catalog — and every returned entry is a
copy of some catalog record that differs from it at most in `matchScore`. -/
theorem claim_C9_catalog_unchanged (cat : List Scheme) (p : ProfileIn) :
    (strict_retrieveRun cat p).2 = cat ∧
    ∀ m ∈ (strict_retrieveRun cat p).1, ∃ s ∈ cat,
      m = { s with matchScore := m.matchScore } := by
  refine ⟨rfl, fun m hm => ?_⟩
  obtain ⟨s, hs, he⟩ := mem_retrieveRun hm
  exact ⟨s, hs, evalScheme_eq_copy he⟩

/-- Witness for claim C9 at a concrete input: the Telangana farmer request
leaves `SCHEMES` unchanged, and its top entry is a score-only copy of a
catalog record. -/
theorem claim_C9_catalog_unchanged_witness :
    (strict_retrieveRun SCHEMES profC1).2 = SCHEMES ∧
    ∃ s ∈ SCHEMES, ({ rythuBandhu with matchScore := mkRat 19 20 } : Scheme) =
      { s with matchScore :=
        ({ rythuBandhu with matchScore := mkRat 19 20 } : Scheme).matchScore } :=
  ⟨(claim_C9_catalog_unchanged SCHEMES profC1).1,
   (claim_C9_catalog_unchanged SCHEMES profC1).2
     { rythuBandhu with matchScore := mkRat 19 20 } (by decide)⟩

/-- Claim C10: every returned match score is one of 0.8, 0.85, 0.9, 0.95; in
particular it is at least 0.8 and the 0.5 jurisdiction-gate baseline never
survives to the output. -/
theorem claim_C10_score_set (p : ProfileIn) (m : Scheme)
    (hm : m ∈ strict_retrieve p) :
    (m.matchScore = mkRat 4 5 ∨ m.matchScore = mkRat 17 20 ∨
      m.matchScore = mkRat 9 10 ∨ m.matchScore = mkRat 19 20) ∧
    mkRat 4 5 ≤ m.matchScore ∧ m.matchScore ≠ mkRat 1 2 := by
  obtain ⟨s, hs, he⟩ := mem_retrieveRun hm
  have hsc := evalScheme_score he
  refine ⟨hsc, ?_, ?_⟩
  · rcases hsc with h | h | h | h <;> rw [h] <;> decide
  · rcases hsc with h | h | h | h <;> rw [h] <;> decide

/-- Witness for claim C10 at a concrete input: the top entry of the
Telangana farmer request scores 0.95, which is in the fixed set, at least
0.8, and not 0.5. -/
theorem claim_C10_score_set_witness :
    (({ rythuBandhu with matchScore := mkRat 19 20 } : Scheme).matchScore = mkRat 4 5 ∨
      ({ rythuBandhu with matchScore := mkRat 19 20 } : Scheme).matchScore = mkRat 17 20 ∨
      ({ rythuBandhu with matchScore := mkRat 19 20 } : Scheme).matchScore = mkRat 9 10 ∨
      ({ rythuBandhu with matchScore := mkRat 19 20 } : Scheme).matchScore = mkRat 19 20) ∧
    mkRat 4 5 ≤ ({ rythuBandhu with matchScore := mkRat 19 20 } : Scheme).matchScore ∧
    ({ rythuBandhu with matchScore := mkRat 19 20 } : Scheme).matchScore ≠ mkRat 1 2 :=
  claim_C10_score_set profC1 { rythuBandhu with matchScore := mkRat 19 20 } (by decide)

/-- Claim C4 counterexample: with a key configured ("k"), a failed external
call (`none`) and a non-empty scheme list, the endpoint returns the fixed
apology sentence, not the per-scheme local fallback text the claim
describes. -/
theorem claim_C4_counterexample :
    synthesize "k" none emptyProfile [pmKisan] (some "en") =
      "Could not generate analysis from Gemini. Please try again later." ∧
    synthesize "k" none emptyProfile [pmKisan] (some "en") ≠
      "- " ++ pmKisan.name ++ ": " ++ fallbackReason pmKisan ++ "\n\n" ++ nextSteps := by
  decide

/-- Claim C4 (amended): with a non-empty scheme list, the per-scheme
"- name: reason" local fallback plus the fixed next-steps block (with the
Hindi substitution pass for language codes starting with "h",
case-insensitively) is returned exactly when no key is configured; when a
key is configured and the external call fails or returns no usable text,
the response is the fixed one-sentence fallback for the language.  In both
situations a text is returned, never an HTTP error. -/
theorem claim_C4_amended (key : String) (out : Option String) (p : ProfileIn)
    (schemes : List Scheme) (language : Option String) (hs : schemes ≠ []) :
    (key = "" → synthesize key out p schemes language =
      (if pyStarts (pyLower (pyLangDefault language)) "h" then
        String.intercalate "\n"
          ((schemes.map (fun s => "- " ++ s.name ++ ": " ++ fallbackReason s)).map
            hindiSubst) ++ "\n\n" ++ nextStepsHi
      else
        String.intercalate "\n"
          (schemes.map (fun s => "- " ++ s.name ++ ": " ++ fallbackReason s)) ++
          "\n\n" ++ nextSteps)) ∧
    (key ≠ "" → (out = none ∨ out = some "") →
      synthesize key out p schemes language =
        geminiEmptyFallback (pyLangDefault language)) := by
  obtain ⟨a, t, rfl⟩ : ∃ a t, schemes = a :: t := by
    cases schemes with
    | nil => exact absurd rfl hs
    | cons a t => exact ⟨a, t, rfl⟩
  constructor
  · intro hk
    subst hk
    simp [synthesize]
  · rintro hk (rfl | rfl) <;> simp [synthesize, hk]

set_option maxRecDepth 40000 in
/-- Witness for the amended claim C4 at a concrete input: with no key
configured, the fallback for the single `pm-kisan` scheme in English. -/
theorem claim_C4_amended_witness :
    synthesize "" none emptyProfile [pmKisan] (some "en") =
      "- PM Kisan Samman Nidhi: You are a farmer, and PM-Kisan supports landholding farmers.\n\n- Verify documents (Aadhaar, Income certificate, Residence proof)\n- Visit the official scheme page or your local helpdesk to apply." := by
  have h := (claim_C4_amended "" none emptyProfile [pmKisan] (some "en")
    (by decide)).1 rfl
  exact h.trans (by decide)
